import Mathlib

/-!
Verification of the diagram-generator scripts of the
`mathematics-for-ai` repository, as a shallow embedding in Lean 4.

Each Python function relevant to the frozen claims is translated into an
executable Lean definition, faithful to the source:

* `softmax` from `slides/lecture-new-v2/python/gen_03_softmax.py`
  (numerically stable softmax over a real vector; floats → ℝ);
* `prufer_to_tree` / `all_labeled_trees` from
  `slides/lecture-08/python/gen_04_cayley_trees.py`;
* `run_script` / `main` of the two `generate_all.py` runner scripts;
* `detect_rewired_edges` from `slides/lecture-08/python/gen_07_small_world.py`;
* `loss_fn` / `grad_fn` / `simulate_gradient_descent` from
  `slides/lecture-new-v2/python/gen_05_gradient_descent.py`;
* `build_matrix` and the `ATTENTION` table from
  `slides/lecture-08/python/gen_20_attention_heatmap.py` (floats → ℚ);
* the `EXTERNALS` / `PORTRAITS` tables and `main` of the two download
  scripts;
* the `ICONS` table of `slides/lecture-new/python/gen_20_section_icons.py`.

Stateful Python (loops mutating counters and lists) becomes explicit
state passing; Python exceptions become explicit outcome records.
-/

namespace MathForAI

/-! ## gen_03_softmax.py: `softmax`

Python source:
```
def softmax(z):
    e = np.exp(z - np.max(z))
    return e / e.sum()
```
`np.max` of a non-empty array is its largest entry; subtraction,
`np.exp` and division act componentwise; `e.sum()` is the scalar sum.
-/

/-- `np.max` over a list of reals: the maximum of the entries
(junk value `0` on the empty list, where NumPy raises). -/
noncomputable def npMax : List ℝ → ℝ
  | [] => 0
  | x :: xs => xs.foldl max x

/-- `softmax(z) = e / e.sum()` with `e = np.exp(z - np.max(z))`. -/
noncomputable def softmax (z : List ℝ) : List ℝ :=
  let e := z.map (fun x => Real.exp (x - npMax z))
  e.map (fun x => x / e.sum)

/-- The textbook softmax `e^{z_i} / Σ_j e^{z_j}` (no max-shift). -/
noncomputable def softmaxTextbook (z : List ℝ) : List ℝ :=
  z.map (fun x => Real.exp x / (z.map Real.exp).sum)

/-! ## gen_04_cayley_trees.py: `prufer_to_tree` and `all_labeled_trees`

Python source (tree decoding):
```
def prufer_to_tree(prufer_seq, n):
    degree = {i: 1 for i in range(1, n + 1)}
    for v in prufer_seq:
        degree[v] += 1
    edges = []
    seq = list(prufer_seq)
    for v in seq:
        for u in range(1, n + 1):
            if degree[u] == 1:
                edges.append((u, v))
                degree[u] -= 1
                degree[v] -= 1
                break
    last = [u for u in range(1, n + 1) if degree[u] == 1]
    if len(last) == 2:
        edges.append((last[0], last[1]))
    return edges
```
The mutable `degree` dict becomes an explicitly threaded `Nat → Nat`
function; the `for u ... break` search becomes `List.find?` over
`[1, …, n]`.
-/

/-- The initial degree dict: every node starts at 1, then one increment
per occurrence in the Prüfer sequence. -/
def initDegree (seq : List Nat) : Nat → Nat :=
  seq.foldl (fun deg v => fun w => if w = v then deg w + 1 else deg w)
    (fun _ => 1)

/-- One iteration of the `for v in seq` loop body: find the first node
`u ∈ [1, …, n]` of degree 1, emit the edge `(u, v)` and decrement the two
degrees (in the same order as the Python statements). If no such `u`
exists the body does nothing. -/
def pruferStep (n : Nat) (deg : Nat → Nat) (v : Nat) :
    (Nat → Nat) × List (Nat × Nat) :=
  match (List.range' 1 n).find? (fun u => deg u == 1) with
  | some u =>
      let d1 := fun w => if w = u then deg w - 1 else deg w
      let d2 := fun w => if w = v then d1 v - 1 else d1 w
      (d2, [(u, v)])
  | none => (deg, [])

/-- The `for v in seq` loop, threading the degree map and the
accumulated edge list. -/
def pruferLoop (n : Nat) : List Nat → (Nat → Nat) → List (Nat × Nat) →
    (Nat → Nat) × List (Nat × Nat)
  | [], deg, edges => (deg, edges)
  | v :: rest, deg, edges =>
      let st := pruferStep n deg v
      pruferLoop n rest st.1 (edges ++ st.2)

/-- `prufer_to_tree(prufer_seq, n)`: decode a Prüfer sequence into an
edge list on nodes `1..n`. -/
def prufer_to_tree (seq : List Nat) (n : Nat) : List (Nat × Nat) :=
  let st := pruferLoop n seq (initDegree seq) []
  let last := (List.range' 1 n).filter (fun u => st.1 u == 1)
  match last with
  | [a, b] => st.2 ++ [(a, b)]
  | _ => st.2

/-- An `nx.Graph` as materialised by the script: an explicit node list
and an edge list. -/
structure PyGraph where
  nodes : List Nat
  edges : List (Nat × Nat)
deriving DecidableEq, Repr

/-- `itertools.product(range(1, n+1), repeat=k)` over an explicit
alphabet: all length-`k` tuples, first coordinate outermost. -/
def tuples (xs : List Nat) : Nat → List (List Nat)
  | 0 => [[]]
  | k + 1 => xs.flatMap (fun a => (tuples xs k).map (fun t => a :: t))

/-- `all_labeled_trees(n)` from the Python source:
`n = 1` gives the empty graph, `n = 2` the single edge `(1, 2)`, and
`n ≥ 3` decodes every Prüfer sequence of length `n - 2` over
`{1, …, n}`, each into a graph on nodes `1..n`. -/
def all_labeled_trees (n : Nat) : List PyGraph :=
  if n = 1 then [⟨[], []⟩]
  else if n = 2 then [⟨[1, 2], [(1, 2)]⟩]
  else (tuples (List.range' 1 n) (n - 2)).map
    (fun seq => ⟨List.range' 1 n, prufer_to_tree seq n⟩)

/-! Executable graph predicates used to check that each generated graph
is a tree on `{1, …, n}`. `nx.Graph` stores edges as a set of unordered
pairs, so edge lists are compared through a canonical form: normalise
the orientation of every edge, drop duplicates, sort. -/

/-- Unordered pair (`frozenset`) as a sorted pair. -/
def normEdge (e : Nat × Nat) : Nat × Nat :=
  if e.1 ≤ e.2 then e else (e.2, e.1)

/-- Lexicographic comparison of edges. -/
def edgeLe (a b : Nat × Nat) : Bool :=
  a.1 < b.1 || (a.1 == b.1 && a.2 ≤ b.2)

/-- Insertion step of insertion sort on edges. -/
def insertEdge (a : Nat × Nat) : List (Nat × Nat) → List (Nat × Nat)
  | [] => [a]
  | b :: bs => if edgeLe a b then a :: b :: bs else b :: insertEdge a bs

/-- Insertion sort on edges. -/
def sortEdges (l : List (Nat × Nat)) : List (Nat × Nat) :=
  l.foldr insertEdge []

/-- Canonical form of an edge list: normalised, deduplicated, sorted.
Two edge lists denote the same `nx.Graph` edge set iff their canonical
forms are equal. -/
def canonicalEdges (es : List (Nat × Nat)) : List (Nat × Nat) :=
  sortEdges (es.map normEdge).dedup

/-- Degree of `v` in an edge list (each edge counted once). -/
def degIn (es : List (Nat × Nat)) (v : Nat) : Nat :=
  (es.filter (fun e => e.1 == v || e.2 == v)).length

/-- One round of leaf pruning: keep only edges both of whose endpoints
have degree at least 2. -/
def pruneLeaves (es : List (Nat × Nat)) : List (Nat × Nat) :=
  es.filter (fun e => 2 ≤ degIn es e.1 && 2 ≤ degIn es e.2)

/-- A graph (on nodes `1..n`) is acyclic iff `n` rounds of leaf pruning
erase every edge, and there is no self-loop. -/
def acyclicB (n : Nat) (es : List (Nat × Nat)) : Bool :=
  (pruneLeaves^[n] (canonicalEdges es)).isEmpty
    && es.all (fun e => e.1 != e.2)

/-- Nodes reachable in at most one step from the set `S`. -/
def expandOnce (es : List (Nat × Nat)) (S : List Nat) : List Nat :=
  (S ++ es.filterMap (fun e => if e.1 ∈ S then some e.2 else none)
     ++ es.filterMap (fun e => if e.2 ∈ S then some e.1 else none)).dedup

/-- The graph on nodes `1..n` is connected: every node is reachable
from node 1 within `n` expansion rounds. -/
def connectedB (n : Nat) (es : List (Nat × Nat)) : Bool :=
  (List.range' 1 n).all (fun v => v ∈ (expandOnce es)^[n] [1])

/-- The edge list describes a tree on `{1, …, n}`: exactly `n - 1`
distinct undirected edges, connected, acyclic. -/
def isTreeOn (n : Nat) (es : List (Nat × Nat)) : Bool :=
  (canonicalEdges es).length == n - 1 && connectedB n es && acyclicB n es

/-- All `n * (n-1) / 2` possible undirected edges on nodes `1..n`. -/
def allPossibleEdges (n : Nat) : List (Nat × Nat) :=
  (List.range' 1 n).flatMap
    (fun i => (List.range' (i + 1) (n - i)).map (fun j => (i, j)))

/-- The canonical edge sets of the graphs in `all_labeled_trees n`. -/
def treeCanonList (n : Nat) : List (List (Nat × Nat)) :=
  (all_labeled_trees n).map (fun G => canonicalEdges G.edges)

/-! ## generate_all.py (lecture-08 and lecture-new-v2): `run_script`, `main`

Python source (identical in both runners):
```
def run_script(module_name: str) -> bool:
    try:
        mod = importlib.import_module(module_name)
        if hasattr(mod, 'main'):
            mod.main()
        else:
            pass
        return True
    except Exception:
        traceback.print_exc()
        return False
```
A module's observable behaviour under this runner is whether its import
raises, whether it defines `main`, and whether calling `main()` raises;
these three facts form the state the embedding is parameterised by.
-/

/-- Behaviour of one Python module as observed by `run_script`. -/
structure ModuleBehavior where
  importOk : Bool
  hasMain : Bool
  mainOk : Bool
deriving DecidableEq, Repr

/-- `run_script`: true iff the import raises nothing and, when a `main`
is defined, calling it raises nothing. -/
def run_script (b : ModuleBehavior) : Bool :=
  if b.importOk then
    (if b.hasMain then b.mainOk else true)
  else false

/-- Mutable loop state of the runner's `main()`. -/
structure RunnerState where
  successes : Nat
  failures : List String
deriving DecidableEq, Repr

/-- The `for i, script_name in enumerate(SCRIPTS, 1)` loop of the
runner's `main()`. -/
def runnerLoop (behav : String → ModuleBehavior) (scripts : List String) :
    RunnerState :=
  scripts.foldl
    (fun st name =>
      if run_script (behav name) then
        { st with successes := st.successes + 1 }
      else
        { st with failures := st.failures ++ [name] })
    ⟨0, []⟩

/-- The runner's `main()` return value:
`return 0 if not failures else 1`. -/
def runnerMain (behav : String → ModuleBehavior) (scripts : List String) :
    Nat :=
  if (runnerLoop behav scripts).failures = [] then 0 else 1

/-- `SCRIPTS` of `slides/lecture-08/python/generate_all.py`. -/
def SCRIPTS_lecture08 : List String :=
  [ "gen_01_konigsberg",
    "gen_02_konigsberg_graph",
    "gen_03_euler_path",
    "gen_04_cayley_trees",
    "gen_05_parse_tree",
    "gen_06_random_graph",
    "gen_07_small_world",
    "gen_08_six_degrees",
    "gen_09_pagerank",
    "gen_10_pagerank_surfer",
    "gen_11_nn_architectures",
    "gen_12_attention",
    "gen_13_knowledge_graph",
    "gen_14_rag_pipeline",
    "gen_15_gnn_message",
    "gen_16_molecule",
    "gen_17_timeline",
    "gen_18_milgram_letters",
    "gen_19_graphrag_concept" ]

/-- `SCRIPTS` of `slides/lecture-new-v2/python/generate_all.py`. -/
def SCRIPTS_lectureNewV2 : List String :=
  [ "gen_01_five_pillars_overview",
    "gen_02_word_vectors",
    "gen_03_softmax",
    "gen_04_galton_board",
    "gen_05_gradient_descent",
    "gen_06_cross_entropy",
    "gen_07_shannon_diagram",
    "gen_08_optimizers",
    "gen_09_scaling_laws",
    "gen_10_convergence",
    "gen_11_timeline",
    "gen_12_embedding_space",
    "gen_13_loss_curve",
    "gen_14_attention_heatmap",
    "gen_15_hero_neural_net",
    "gen_16_token_pipeline",
    "gen_17_matrix_multiply",
    "gen_18_backprop_flow",
    "gen_19_radar_pillars",
    "gen_20_section_icons" ]

/-- The `gen_*.py` modules that exist in `slides/lecture-08/python/`
(file names without the `.py` suffix, from the repository tree). -/
def genModules_lecture08 : List String :=
  [ "gen_01_konigsberg",
    "gen_02_konigsberg_graph",
    "gen_03_euler_path",
    "gen_04_cayley_trees",
    "gen_05_parse_tree",
    "gen_06_random_graph",
    "gen_07_small_world",
    "gen_08_six_degrees",
    "gen_09_pagerank",
    "gen_10_pagerank_surfer",
    "gen_11_nn_architectures",
    "gen_12_attention",
    "gen_13_knowledge_graph",
    "gen_14_rag_pipeline",
    "gen_15_gnn_message",
    "gen_16_molecule",
    "gen_17_timeline",
    "gen_18_milgram_letters",
    "gen_19_graphrag_concept",
    "gen_20_attention_heatmap",
    "gen_21_multihead_attention",
    "gen_22_sparse_dense_attention",
    "gen_23_gnn_vs_transformer",
    "gen_24_emergence",
    "gen_25_math_constellation",
    "gen_26_attention_derivation",
    "gen_27_llm_cross_section",
    "gen_28_scaling_laws",
    "gen_29_five_pillars" ]

/-- The `gen_*.py` modules that exist in `slides/lecture-new-v2/python/`
(from the repository tree). -/
def genModules_lectureNewV2 : List String :=
  [ "gen_01_five_pillars_overview",
    "gen_03_softmax",
    "gen_05_gradient_descent",
    "gen_06_cross_entropy",
    "gen_07_shannon_diagram",
    "gen_08_optimizers",
    "gen_09_scaling_laws",
    "gen_12_embedding_space",
    "gen_13_loss_curve",
    "gen_14_attention_heatmap",
    "gen_17_matrix_multiply" ]

/-- The `gen_*.py` modules that exist in `slides/lecture-new/python/`
(from the repository tree). -/
def genModules_lectureNew : List String :=
  [ "gen_02_word_vectors",
    "gen_04_galton_board",
    "gen_10_convergence",
    "gen_11_timeline",
    "gen_15_hero_neural_net",
    "gen_16_token_pipeline",
    "gen_18_backprop_flow",
    "gen_19_radar_pillars",
    "gen_20_section_icons" ]

/-! ## gen_07_small_world.py: `detect_rewired_edges`

Python source:
```
def detect_rewired_edges(G_regular, G_rewired):
    regular_set = set(frozenset(e) for e in G_regular.edges())
    kept = []
    rewired = []
    for e in G_rewired.edges():
        if frozenset(e) in regular_set:
            kept.append(e)
        else:
            rewired.append(e)
    return kept, rewired
```
A `frozenset` of a two-element edge is an unordered pair, so membership
in `regular_set` is membership of the orientation-normalised edge among
the orientation-normalised regular edges.
-/

/-- `detect_rewired_edges(G_regular, G_rewired)` on edge lists. -/
def detect_rewired_edges (regular rewired : List (Nat × Nat)) :
    List (Nat × Nat) × List (Nat × Nat) :=
  let regularSet := regular.map normEdge
  ( rewired.filter (fun e => normEdge e ∈ regularSet),
    rewired.filter (fun e => normEdge e ∉ regularSet) )

/-! ## gen_05_gradient_descent.py: `loss_fn`, `grad_fn`,
`simulate_gradient_descent`

Python source:
```
def loss_fn(x, y):
    return 0.6 * x ** 2 + 0.9 * y ** 2 + 0.3 * x * y \
        + 0.15 * np.sin(2 * x) * np.cos(2 * y)

def grad_fn(x, y):
    h = 1e-5
    dfdx = (loss_fn(x + h, y) - loss_fn(x - h, y)) / (2 * h)
    dfdy = (loss_fn(x, y + h) - loss_fn(x, y - h)) / (2 * h)
    return dfdx, dfdy

def simulate_gradient_descent(x0, y0, lr=0.12, n_steps=20):
    path = [(x0, y0, loss_fn(x0, y0))]
    x, y = x0, y0
    for _ in range(n_steps):
        dx, dy = grad_fn(x, y)
        x -= lr * dx
        y -= lr * dy
        path.append((x, y, loss_fn(x, y)))
    return np.array(path)
```
Floats are embedded as exact reals.
-/

/-- `loss_fn(x, y)`. -/
noncomputable def loss_fn (x y : ℝ) : ℝ :=
  0.6 * x ^ 2 + 0.9 * y ^ 2 + 0.3 * x * y
    + 0.15 * Real.sin (2 * x) * Real.cos (2 * y)

/-- `grad_fn(x, y)`: central-difference gradient with `h = 1e-5`. -/
noncomputable def grad_fn (x y : ℝ) : ℝ × ℝ :=
  let h : ℝ := 1e-5
  ( (loss_fn (x + h) y - loss_fn (x - h) y) / (2 * h),
    (loss_fn x (y + h) - loss_fn x (y - h)) / (2 * h) )

/-- One loop body of `simulate_gradient_descent`:
`x -= lr * dx; y -= lr * dy`. -/
noncomputable def gdStep (lr : ℝ) (p : ℝ × ℝ) : ℝ × ℝ :=
  (p.1 - lr * (grad_fn p.1 p.2).1, p.2 - lr * (grad_fn p.1 p.2).2)

/-- The `for _ in range(n_steps)` loop: the points appended after the
start point. -/
noncomputable def gdTail (lr : ℝ) : Nat → ℝ × ℝ → List (ℝ × ℝ × ℝ)
  | 0, _ => []
  | k + 1, p =>
      let q := gdStep lr p
      (q.1, q.2, loss_fn q.1 q.2) :: gdTail lr k q

/-- `simulate_gradient_descent(x0, y0, lr, n_steps)`. -/
noncomputable def simulate_gradient_descent (x0 y0 lr : ℝ) (n_steps : Nat) :
    List (ℝ × ℝ × ℝ) :=
  (x0, y0, loss_fn x0 y0) :: gdTail lr n_steps (x0, y0)

/-! ## gen_20_attention_heatmap.py: `ATTENTION` and `build_matrix`

Python source:
```
WORDS = ['The', 'cat', 'sat', 'on', 'the', 'mat']
N = len(WORDS)

ATTENTION = { frozenset({1, 2}): 0.90, ..., frozenset({2, 4}): 0.10 }

def build_matrix():
    mat = np.zeros((N, N))
    for pair, weight in ATTENTION.items():
        i, j = sorted(pair)
        mat[i, j] = weight
        mat[j, i] = weight
    np.fill_diagonal(mat, 1.0)
    return mat
```
Float weights are embedded as exact rationals; the matrix is a function
on indices, zero initialised, written entry by entry.
-/

/-- `WORDS`. -/
def WORDS : List String := ["The", "cat", "sat", "on", "the", "mat"]

/-- `N = len(WORDS)`. -/
def NWords : Nat := WORDS.length

/-- The `ATTENTION` dict, in source order: unordered index pairs with
their weights. -/
def ATTENTION : List ((Nat × Nat) × ℚ) :=
  [ ((1, 2), 0.90),
    ((3, 5), 0.70),
    ((0, 1), 0.60),
    ((2, 3), 0.50),
    ((4, 5), 0.45),
    ((1, 5), 0.35),
    ((0, 2), 0.25),
    ((2, 5), 0.20),
    ((1, 3), 0.20),
    ((3, 4), 0.18),
    ((0, 5), 0.15),
    ((0, 4), 0.12),
    ((0, 3), 0.10),
    ((1, 4), 0.10),
    ((2, 4), 0.10) ]

/-- `build_matrix()`: start from the zero matrix, write each weight at
the two mirrored positions of its sorted pair, then overwrite the
diagonal of the `N × N` array with 1. -/
def build_matrix : Nat → Nat → ℚ :=
  let filled := ATTENTION.foldl
    (fun m pw =>
      let i := min pw.1.1 pw.1.2
      let j := max pw.1.1 pw.1.2
      let m1 := fun a b => if a = i ∧ b = j then pw.2 else m a b
      fun a b => if a = j ∧ b = i then pw.2 else m1 a b)
    (fun _ _ => 0)
  fun a b => if a = b ∧ a < NWords then 1 else filled a b

/-- The weight the `ATTENTION` table assigns to the unordered pair
`{i, j}`, 0 when the pair is absent. -/
def attWeight (i j : Nat) : ℚ :=
  match ATTENTION.find?
      (fun pw => (min pw.1.1 pw.1.2, max pw.1.1 pw.1.2)
        == (min i j, max i j)) with
  | some pw => pw.2
  | none => 0

/-- The sum of row `i` of the 6×6 attention matrix. -/
def attRowSum (i : Nat) : ℚ :=
  ((List.range NWords).map (build_matrix i)).sum

/-! ## The download scripts: `download_external.py`, `download_portraits.py`

Per-item Python source (identical in both scripts up to naming):
```
def download_external(filename, url, description, dest_dir) -> bool:
    dest_path = os.path.join(dest_dir, filename)
    try:
        req = urllib.request.Request(url, headers={...})
        with urllib.request.urlopen(req, timeout=30) as response:
            data = response.read()
        with open(dest_path, 'wb') as f:
            f.write(data)
        return True
    except Exception as exc:
        print(f'    WARNING: ...')
        return False

def main():
    ...
    for filename, url, description in EXTERNALS:
        ok = download_external(filename, url, description, EXTERNAL_DIR)
        if ok: successes += 1
        else:  failures.append(filename)
    return 0 if not failures else 1
```
The network and the filesystem are external to the program, so a run is
parameterised by a fetch oracle: per item, either the bytes obtained
(request, read and write all succeed) or an exception somewhere in the
`try` block.
-/

/-- One entry of `EXTERNALS` / `PORTRAITS`:
`(filename, url, description)`. -/
structure DownloadItem where
  filename : String
  url : String
  description : String
deriving DecidableEq, Repr

/-- What the environment does for one item: deliver bytes, or raise
somewhere inside the `try` block. -/
inductive FetchResult where
  | ok (data : List Nat)
  | exn
deriving DecidableEq, Repr

/-- `download_external(filename, url, description, dest_dir)`: returns
the success flag together with the file write performed (destination
path and bytes), `none` when the `try` block raised. -/
def download_external (fetch : DownloadItem → FetchResult)
    (dest_dir : String) (it : DownloadItem) :
    Bool × Option (String × List Nat) :=
  match fetch it with
  | .ok data => (true, some (dest_dir ++ "/" ++ it.filename, data))
  | .exn => (false, none)

/-- `download_portrait(filename, url, description, dest_dir)`: same
body as `download_external` (the two scripts differ only in their item
tables and headers). -/
def download_portrait (fetch : DownloadItem → FetchResult)
    (dest_dir : String) (it : DownloadItem) :
    Bool × Option (String × List Nat) :=
  match fetch it with
  | .ok data => (true, some (dest_dir ++ "/" ++ it.filename, data))
  | .exn => (false, none)

/-- `EXTERNALS` of `download_external.py`. -/
def EXTERNALS : List DownloadItem :=
  [ ⟨"xkcd-machine-learning.png",
     "https://imgs.xkcd.com/comics/machine_learning.png",
     "XKCD #1838: Machine Learning (CC BY-NC 2.5)"⟩,
    ⟨"xkcd-curve-fitting.png",
     "https://imgs.xkcd.com/comics/curve_fitting.png",
     "XKCD #2048: Curve-Fitting (CC BY-NC 2.5)"⟩,
    ⟨"xkcd-frequentists-bayesians.png",
     "https://imgs.xkcd.com/comics/frequentists_vs_bayesians.png",
     "XKCD #1132: Frequentists vs Bayesians (CC BY-NC 2.5)"⟩,
    ⟨"principia-title-page.jpg",
     "https://upload.wikimedia.org/wikipedia/commons/e/e9/Principia_Mathematica_1713.JPG",
     "Newton Principia Mathematica title page (CC BY 4.0)"⟩ ]

/-- `PORTRAITS` of `download_portraits.py`. -/
def PORTRAITS : List DownloadItem :=
  [ ⟨"grassmann-1860.jpg",
     "https://upload.wikimedia.org/wikipedia/commons/thumb/5/59/Hermann_Grassmann.jpg/440px-Hermann_Grassmann.jpg",
     "Hermann Grassmann portrait"⟩,
    ⟨"pascal-1663.jpg",
     "https://upload.wikimedia.org/wikipedia/commons/thumb/9/98/Blaise_Pascal_Versailles.JPG/440px-Blaise_Pascal_Versailles.JPG",
     "Blaise Pascal (Versailles portrait by Quesnel)"⟩,
    ⟨"newton-1689.jpg",
     "https://upload.wikimedia.org/wikipedia/commons/thumb/3/3b/GodfreyKneller-IsaacNewton-1689.jpg/440px-GodfreyKneller-IsaacNewton-1689.jpg",
     "Isaac Newton (Kneller 1689)"⟩,
    ⟨"leibniz-1695.jpg",
     "https://upload.wikimedia.org/wikipedia/commons/thumb/6/6a/Gottfried_Wilhelm_von_Leibniz.jpg/440px-Gottfried_Wilhelm_von_Leibniz.jpg",
     "Gottfried Leibniz (Francke portrait)"⟩,
    ⟨"shannon-1963.jpg",
     "https://upload.wikimedia.org/wikipedia/commons/thumb/9/9b/ClaudeShannon_MFO3807.jpg/440px-ClaudeShannon_MFO3807.jpg",
     "Claude Shannon at Bell Labs"⟩,
    ⟨"hinton-2024.jpg",
     "https://upload.wikimedia.org/wikipedia/commons/thumb/8/8a/Geoffrey_Hinton_Royal_Society.jpg/440px-Geoffrey_Hinton_Royal_Society.jpg",
     "Geoffrey Hinton (Nobel laureate)"⟩,
    ⟨"cayley-1883.jpg",
     "https://upload.wikimedia.org/wikipedia/commons/thumb/a/a8/Arthur_Cayley.jpg/440px-Arthur_Cayley.jpg",
     "Arthur Cayley engraving"⟩,
    ⟨"bayes.jpg",
     "https://upload.wikimedia.org/wikipedia/commons/thumb/d/d4/Thomas_Bayes.gif/440px-Thomas_Bayes.gif",
     "Thomas Bayes (disputed portrait)"⟩ ]

/-- The repository's download scripts (from the repository tree). -/
def downloadScriptPaths : List String :=
  [ "slides/lecture-new-v2/python/download_external.py",
    "slides/lecture-new/python/download_portraits.py" ]

/-- The `for filename, url, description in ITEMS` loop of a download
script's `main()`. -/
def downloadLoop (outcome : DownloadItem → Bool)
    (items : List DownloadItem) : Nat × List String :=
  items.foldl
    (fun st it =>
      if outcome it then (st.1 + 1, st.2)
      else (st.1, st.2 ++ [it.filename]))
    (0, [])

/-- A download script's `main()` return value:
`return 0 if not failures else 1`. -/
def downloadMain (outcome : DownloadItem → Bool)
    (items : List DownloadItem) : Nat :=
  if (downloadLoop outcome items).2 = [] then 0 else 1

/-! ## gen_20_section_icons.py: `ICONS` and the PNG files written

Python source:
```
ICONS = [
    ('20a-icon-linalg.png', '[M]',  BLUE),
    ('20b-icon-prob.png',   'P(x)', GREEN),
    ('20c-icon-calc.png',   '∇', ORANGE),
    ('20d-icon-info.png',   'H',    TEAL),
    ('20e-icon-optim.png',  '↓', YELLOW),
]

def main():
    for filename, symbol, color in ICONS:
        output_path = os.path.join(SCRIPT_DIR, '..', 'images', filename)
        ...
        plt.savefig(output_path, ...)
```
One `plt.savefig` per icon, so one run writes one PNG per `ICONS`
entry. Every other generator script in the repository executes its
single `plt.savefig` statement exactly once per run (straight-line
code, no loop around it).
-/

/-- `ICONS`: `(output_filename, symbol, color)`. -/
def ICONS : List (String × String × String) :=
  [ ("20a-icon-linalg.png", "[M]", "#3498db"),
    ("20b-icon-prob.png", "P(x)", "#2ecc71"),
    ("20c-icon-calc.png", "∇", "#e67e22"),
    ("20d-icon-info.png", "H", "#1abc9c"),
    ("20e-icon-optim.png", "↓", "#f1c40f") ]

/-- The PNG files one run of `gen_20_section_icons.main()` saves: one
per entry of `ICONS`. -/
def gen20SectionIcons_savedPNGs : List String := ICONS.map (fun ic => ic.1)

/-- The PNG files one run of `gen_03_softmax.main()` saves: its single
`plt.savefig(OUTPUT_PATH)` call. -/
def gen03Softmax_savedPNGs : List String := ["03-softmax.png"]

/-- Per generator script, the number of `plt.savefig` executions in one
run, read off the straight-line structure of each script: every script
contains exactly one `savefig` statement, and only in
`gen_20_section_icons.py` does it sit inside a loop (over `ICONS`). -/
def generatorSavefigCounts : List (String × Nat) :=
  (genModules_lecture08.map (fun m => ("lecture-08/" ++ m, 1)))
  ++ (genModules_lectureNewV2.map (fun m => ("lecture-new-v2/" ++ m, 1)))
  ++ [ ("lecture-new/gen_02_word_vectors", 1),
       ("lecture-new/gen_04_galton_board", 1),
       ("lecture-new/gen_10_convergence", 1),
       ("lecture-new/gen_11_timeline", 1),
       ("lecture-new/gen_15_hero_neural_net", 1),
       ("lecture-new/gen_16_token_pipeline", 1),
       ("lecture-new/gen_18_backprop_flow", 1),
       ("lecture-new/gen_19_radar_pillars", 1),
       ("lecture-new/gen_20_section_icons", ICONS.length) ]

lemma npMax_mem : ∀ (z : List ℝ), z ≠ [] → npMax z ∈ z := by
  intro z hz
  match z with
  | x :: xs =>
    simp only [npMax]
    have : ∀ (l : List ℝ) (a : ℝ), l.foldl max a = a ∨ l.foldl max a ∈ l := by
      intro l
      induction l with
      | nil => intro a; left; rfl
      | cons b bs ih =>
        intro a
        rcases ih (max a b) with h | h
        · rw [List.foldl_cons, h]
          rcases le_total a b with hab | hab
          · right; rw [max_eq_right hab]; exact List.mem_cons_self b bs
          · left; rw [max_eq_left hab]
        · right; exact List.mem_cons_of_mem b h
    rcases this xs x with h | h
    · rw [h]; exact List.mem_cons_self x xs
    · exact List.mem_cons_of_mem x h

lemma sum_pos_of_forall_pos :
    ∀ (l : List ℝ), l ≠ [] → (∀ x ∈ l, 0 < x) → 0 < l.sum := by
  intro l
  induction l with
  | nil => intro h; exact absurd rfl h
  | cons a as ih =>
    intro _ hpos
    rw [List.sum_cons]
    rcases eq_or_ne as [] with h | h
    · subst h; simpa using hpos a (List.mem_cons_self a [])
    · have ha := hpos a (List.mem_cons_self a as)
      have has := ih h (fun x hx => hpos x (List.mem_cons_of_mem a hx))
      linarith

lemma sum_map_div (l : List ℝ) (c : ℝ) :
    (l.map (fun x => x / c)).sum = l.sum / c := by
  induction l with
  | nil => simp
  | cons a as ih => simp [ih, add_div]

lemma sum_map_exp_sub (z : List ℝ) (m : ℝ) :
    (z.map (fun x => Real.exp (x - m))).sum
      = (z.map Real.exp).sum * Real.exp (-m) := by
  induction z with
  | nil => simp
  | cons a as ih =>
    rw [List.map_cons, List.sum_cons, List.map_cons, List.sum_cons, ih,
      sub_eq_add_neg, Real.exp_add]
    ring

lemma softmax_eq_map (z : List ℝ) :
    softmax z = z.map (fun x =>
      Real.exp (x - npMax z)
        / (z.map (fun y => Real.exp (y - npMax z))).sum) := by
  simp only [softmax, List.map_map]
  rfl

lemma expsum_pos (z : List ℝ) (hz : z ≠ []) :
    0 < (z.map (fun y => Real.exp (y - npMax z))).sum := by
  apply sum_pos_of_forall_pos
  · intro h
    exact hz (List.map_eq_nil_iff.mp h)
  · intro x hx
    obtain ⟨y, _, rfl⟩ := List.mem_map.mp hx
    exact Real.exp_pos _

lemma softmax_length (z : List ℝ) : (softmax z).length = z.length := by
  rw [softmax_eq_map, List.length_map]

lemma softmax_pos (z : List ℝ) (hz : z ≠ []) : ∀ p ∈ softmax z, 0 < p := by
  intro p hp
  rw [softmax_eq_map] at hp
  obtain ⟨x, _, rfl⟩ := List.mem_map.mp hp
  exact div_pos (Real.exp_pos _) (expsum_pos z hz)

lemma softmax_sum (z : List ℝ) (hz : z ≠ []) : (softmax z).sum = 1 := by
  have hS := expsum_pos z hz
  rw [softmax_eq_map]
  have : z.map (fun x =>
        Real.exp (x - npMax z)
          / (z.map (fun y => Real.exp (y - npMax z))).sum)
      = (z.map (fun y => Real.exp (y - npMax z))).map
          (fun x => x / (z.map (fun y => Real.exp (y - npMax z))).sum) := by
    rw [List.map_map]; rfl
  rw [this, sum_map_div, div_self (ne_of_gt hS)]

lemma softmax_eq_textbook (z : List ℝ) (hz : z ≠ []) :
    softmax z = softmaxTextbook z := by
  have hT : 0 < (z.map Real.exp).sum := by
    apply sum_pos_of_forall_pos
    · intro h; exact hz (List.map_eq_nil_iff.mp h)
    · intro x hx
      obtain ⟨y, _, rfl⟩ := List.mem_map.mp hx
      exact Real.exp_pos _
  rw [softmax_eq_map, softmaxTextbook, sum_map_exp_sub]
  apply List.map_congr_left
  intro x _
  rw [sub_eq_add_neg, Real.exp_add]
  exact mul_div_mul_right _ _ (Real.exp_ne_zero (-npMax z))

lemma softmax_shift (z : List ℝ) (c : ℝ) (hz : z ≠ []) :
    softmax (z.map (fun x => x + c)) = softmax z := by
  have hz' : z.map (fun x => x + c) ≠ [] := by
    intro h; exact hz (List.map_eq_nil_iff.mp h)
  have hT : 0 < (z.map Real.exp).sum := by
    apply sum_pos_of_forall_pos
    · intro h; exact hz (List.map_eq_nil_iff.mp h)
    · intro x hx
      obtain ⟨y, _, rfl⟩ := List.mem_map.mp hx
      exact Real.exp_pos _
  rw [softmax_eq_textbook _ hz', softmax_eq_textbook _ hz]
  have hsum : ((z.map (fun x => x + c)).map Real.exp).sum
      = (z.map Real.exp).sum * Real.exp c := by
    rw [List.map_map]
    have := sum_map_exp_sub z (-c)
    simp only [sub_neg_eq_add, neg_neg] at this
    exact this
  simp only [softmaxTextbook]
  simp only [hsum]
  rw [List.map_map]
  apply List.map_congr_left
  intro x _
  show Real.exp (x + c) / ((z.map Real.exp).sum * Real.exp c)
      = Real.exp x / (z.map Real.exp).sum
  rw [Real.exp_add]
  exact mul_div_mul_right _ _ (Real.exp_ne_zero c)

/-! ## Helper lemmas -/

lemma sum_map_const_nat (xs : List Nat) (m : Nat) :
    (xs.map (fun _ => m)).sum = xs.length * m := by
  induction xs with
  | nil => simp
  | cons a as ih => simp [ih, Nat.succ_mul, Nat.add_comm]

lemma tuples_length (xs : List Nat) :
    ∀ k : Nat, (tuples xs k).length = xs.length ^ k := by
  intro k
  induction k with
  | zero => rfl
  | succ k ih =>
    simp only [tuples, List.length_flatMap, List.length_map]
    have : (List.map (List.length ∘ fun a => (tuples xs k).map (fun t => a :: t)) xs)
        = xs.map (fun _ => (tuples xs k).length) := by
      apply List.map_congr_left
      intro a _
      simp
    rw [this, sum_map_const_nat, ih, pow_succ, Nat.mul_comm]

lemma length_filter_partition {α : Type} (p : α → Bool) (l : List α) :
    (l.filter p).length + (l.filter (fun x => !p x)).length = l.length := by
  induction l with
  | nil => rfl
  | cons a as ih =>
    cases h : p a <;> simp [List.filter_cons, h] <;> omega

lemma count_filter_partition (p : Nat × Nat → Bool)
    (l : List (Nat × Nat)) (a : Nat × Nat) :
    ((l.filter p).count a + (l.filter (fun x => !p x)).count a)
      = l.count a := by
  induction l with
  | nil => rfl
  | cons b bs ih =>
    cases hb : p b <;>
      simp [List.filter_cons, hb, List.count_cons] <;>
      split_ifs <;> omega

lemma runnerLoop_invariant (behav : String → ModuleBehavior) :
    ∀ (scripts : List String) (st : RunnerState),
      (scripts.foldl
        (fun st name =>
          if run_script (behav name) then
            { st with successes := st.successes + 1 }
          else
            { st with failures := st.failures ++ [name] }) st).successes
        = st.successes
            + (scripts.filter (fun s => run_script (behav s))).length
      ∧ (scripts.foldl
          (fun st name =>
            if run_script (behav name) then
              { st with successes := st.successes + 1 }
            else
              { st with failures := st.failures ++ [name] }) st).failures
        = st.failures ++ scripts.filter (fun s => !run_script (behav s)) := by
  intro scripts
  induction scripts with
  | nil => intro st; simp
  | cons a as ih =>
    intro st
    cases h : run_script (behav a)
    · rw [List.foldl_cons, if_neg (by rw [h]; exact Bool.false_ne_true)]
      refine ⟨?_, ?_⟩
      · rw [(ih _).1]
        simp [List.filter_cons, h]
      · rw [(ih _).2]
        simp [List.filter_cons, h]
    · rw [List.foldl_cons, if_pos h]
      refine ⟨?_, ?_⟩
      · rw [(ih _).1]
        simp [List.filter_cons, h]
        omega
      · rw [(ih _).2]
        simp [List.filter_cons, h]

lemma runnerLoop_successes (behav : String → ModuleBehavior)
    (scripts : List String) :
    (runnerLoop behav scripts).successes
      = (scripts.filter (fun s => run_script (behav s))).length := by
  have := (runnerLoop_invariant behav scripts ⟨0, []⟩).1
  simpa [runnerLoop] using this

lemma runnerLoop_failures (behav : String → ModuleBehavior)
    (scripts : List String) :
    (runnerLoop behav scripts).failures
      = scripts.filter (fun s => !run_script (behav s)) := by
  have := (runnerLoop_invariant behav scripts ⟨0, []⟩).2
  simpa [runnerLoop] using this

/-! ## Claim theorems -/


lemma gdTail_length (lr : ℝ) : ∀ (k : Nat) (p : ℝ × ℝ),
    (gdTail lr k p).length = k := by
  intro k
  induction k with
  | zero => intro p; rfl
  | succ k ih => intro p; simp [gdTail, ih]

lemma gdTail_loss (lr : ℝ) : ∀ (k : Nat) (p : ℝ × ℝ),
    ∀ q ∈ gdTail lr k p, q.2.2 = loss_fn q.1 q.2.1 := by
  intro k
  induction k with
  | zero => intro p q hq; cases hq
  | succ k ih =>
    intro p q hq
    rw [gdTail] at hq
    rcases List.mem_cons.mp hq with h | h
    · subst h; rfl
    · exact ih _ q h

lemma gdTail_chain (lr : ℝ) : ∀ (k : Nat) (p : ℝ × ℝ × ℝ),
    List.Chain' (fun p q => (q.1, q.2.1) = gdStep lr (p.1, p.2.1))
      (p :: gdTail lr k (p.1, p.2.1)) := by
  intro k
  induction k with
  | zero =>
    intro p
    rw [gdTail]
    exact List.chain'_singleton p
  | succ k ih =>
    intro p
    rw [gdTail]
    refine List.Chain'.cons rfl ?_
    have := ih (((gdStep lr (p.1, p.2.1)).1, (gdStep lr (p.1, p.2.1)).2,
      loss_fn (gdStep lr (p.1, p.2.1)).1 (gdStep lr (p.1, p.2.1)).2))
    simpa using this

/-- C7: for every start point, learning rate and step count,
`simulate_gradient_descent` returns a trajectory of exactly
`n_steps + 1` points; the first point is `(x0, y0, loss_fn(x0, y0))`;
consecutive points are related by the single update
`x ← x - lr*dx, y ← y - lr*dy` with `(dx, dy) = grad_fn(x, y)`;
`grad_fn` is the central difference of `loss_fn` with `h = 1e-5`; and
every point's third coordinate is `loss_fn` of its first two. -/
theorem C7_simulate_gradient_descent_spec (x0 y0 lr : ℝ) (n_steps : Nat) :
    (simulate_gradient_descent x0 y0 lr n_steps).length = n_steps + 1
    ∧ (simulate_gradient_descent x0 y0 lr n_steps).head?
        = some (x0, y0, loss_fn x0 y0)
    ∧ (∀ p ∈ simulate_gradient_descent x0 y0 lr n_steps,
        p.2.2 = loss_fn p.1 p.2.1)
    ∧ List.Chain' (fun p q => (q.1, q.2.1) = gdStep lr (p.1, p.2.1))
        (simulate_gradient_descent x0 y0 lr n_steps)
    ∧ (∀ x y : ℝ, grad_fn x y
        = ( (loss_fn (x + 1e-5) y - loss_fn (x - 1e-5) y) / (2 * 1e-5),
            (loss_fn x (y + 1e-5) - loss_fn x (y - 1e-5)) / (2 * 1e-5) ))
    ∧ (∀ (l : ℝ) (p : ℝ × ℝ), gdStep l p
        = (p.1 - l * (grad_fn p.1 p.2).1, p.2 - l * (grad_fn p.1 p.2).2)) := by
  refine ⟨?_, rfl, ?_, ?_, fun x y => rfl, fun l p => rfl⟩
  · simp [simulate_gradient_descent, gdTail_length]
  · intro p hp
    rw [simulate_gradient_descent] at hp
    rcases List.mem_cons.mp hp with h | h
    · subst h; rfl
    · exact gdTail_loss lr n_steps (x0, y0) p h
  · have := gdTail_chain lr n_steps (x0, y0, loss_fn x0 y0)
    simpa [simulate_gradient_descent] using this

/-- C7 witness: the trajectory from `(1, 1)` with zero steps contains
its start point, whose third coordinate is the loss there. -/
theorem C7_witness :
    ((1 : ℝ), (1 : ℝ), loss_fn 1 1) ∈ simulate_gradient_descent 1 1 1 0
    ∧ (((1 : ℝ), (1 : ℝ), loss_fn 1 1) : ℝ × ℝ × ℝ).2.2
        = loss_fn (((1 : ℝ), (1 : ℝ), loss_fn 1 1) : ℝ × ℝ × ℝ).1
            (((1 : ℝ), (1 : ℝ), loss_fn 1 1) : ℝ × ℝ × ℝ).2.1 :=
  ⟨List.mem_cons_self _ _,
   (C7_simulate_gradient_descent_spec 1 1 1 0).2.2.1 _
     (List.mem_cons_self _ _)⟩

/-- C2: on every non-empty real vector, `softmax` preserves length,
returns strictly positive entries summing to 1, agrees with the
textbook form `exp zi / Σ exp zj`, and is invariant under adding a
constant to every component. -/
theorem C2_softmax_spec (z : List ℝ) (c : ℝ) (hz : z ≠ []) :
    (softmax z).length = z.length
    ∧ (∀ p ∈ softmax z, 0 < p)
    ∧ (softmax z).sum = 1
    ∧ softmax z = softmaxTextbook z
    ∧ softmax (z.map (fun x => x + c)) = softmax z :=
  ⟨softmax_length z, softmax_pos z hz, softmax_sum z hz,
   softmax_eq_textbook z hz, softmax_shift z c hz⟩

/-- C2 witness: the spec instantiated at the one-element vector `[0]`. -/
theorem C2_softmax_witness :
    ([(0 : ℝ)] ≠ []) ∧ (softmax [(0 : ℝ)]).sum = 1 :=
  ⟨List.cons_ne_nil 0 [], (C2_softmax_spec [(0 : ℝ)] 1
    (List.cons_ne_nil 0 [])).2.2.1⟩

/-- C3: `run_script` returns true exactly when the import raises
nothing and a defined `main()` raises nothing; the runner loop visits
`SCRIPTS` in order, its final counts satisfy
`successes + length failures = length SCRIPTS` with every script in
exactly one bucket, and `main()` returns 0 iff `failures` is empty. -/
theorem C3_runner_spec :
    (∀ b : ModuleBehavior,
      run_script b = true ↔
        (b.importOk = true ∧ (b.hasMain = true → b.mainOk = true)))
    ∧ (∀ (behav : String → ModuleBehavior) (scripts : List String),
        (runnerLoop behav scripts).successes
            + (runnerLoop behav scripts).failures.length = scripts.length
        ∧ (runnerLoop behav scripts).failures
            = scripts.filter (fun s => !run_script (behav s))
        ∧ (runnerLoop behav scripts).successes
            = (scripts.filter (fun s => run_script (behav s))).length
        ∧ (runnerMain behav scripts = 0 ↔
            (runnerLoop behav scripts).failures = [])
        ∧ (runnerMain behav scripts = 0 ∨ runnerMain behav scripts = 1))
    ∧ SCRIPTS_lecture08.length = 19 ∧ SCRIPTS_lectureNewV2.length = 20 := by
  refine ⟨?_, ?_, rfl, rfl⟩
  · intro b
    cases b with
    | mk importOk hasMain mainOk =>
      cases importOk <;> cases hasMain <;> cases mainOk <;>
        simp [run_script]
  · intro behav scripts
    refine ⟨?_, runnerLoop_failures behav scripts,
      runnerLoop_successes behav scripts, ?_, ?_⟩
    · rw [runnerLoop_successes, runnerLoop_failures]
      exact length_filter_partition _ scripts
    · constructor
      · intro h
        rw [runnerMain] at h
        by_cases hf : (runnerLoop behav scripts).failures = []
        · exact hf
        · rw [if_neg hf] at h
          exact absurd h one_ne_zero
      · intro h
        rw [runnerMain, if_pos h]
    · rw [runnerMain]
      by_cases hf : (runnerLoop behav scripts).failures = []
      · left; rw [if_pos hf]
      · right; rw [if_neg hf]

/-- C3 witness: the bookkeeping identity instantiated at the lecture-08
`SCRIPTS` list under a behaviour where every import succeeds with no
`main` defined. -/
theorem C3_runner_witness :
    (runnerLoop (fun _ => ⟨true, false, false⟩) SCRIPTS_lecture08).successes
      + (runnerLoop (fun _ => ⟨true, false, false⟩)
          SCRIPTS_lecture08).failures.length
      = SCRIPTS_lecture08.length :=
  (C3_runner_spec.2.1 (fun _ => ⟨true, false, false⟩) SCRIPTS_lecture08).1

/-- C10: a module whose import raises nothing is a success for
`run_script` even when it defines no `main` attribute; the missing
attribute is never reported as a failure. -/
theorem C10_run_script_no_main (b : ModuleBehavior)
    (h1 : b.importOk = true) (h2 : b.hasMain = false) :
    run_script b = true := by
  rw [run_script, h1, h2]
  rfl

/-- C10 witness: the module behaviour of an import-only script (such as
`gen_04_cayley_trees`, which draws at module level): import succeeds,
no `main` defined. -/
theorem C10_witness :
    ((⟨true, false, false⟩ : ModuleBehavior).importOk = true)
    ∧ ((⟨true, false, false⟩ : ModuleBehavior).hasMain = false)
    ∧ run_script ⟨true, false, false⟩ = true :=
  ⟨rfl, rfl, C10_run_script_no_main ⟨true, false, false⟩ rfl rfl⟩

/-- C5: the lecture-08 runner's `SCRIPTS` all name generator modules
present in its directory, but the lecture-new-v2 runner lists
`gen_02_word_vectors` (among 9 such names), which does not exist in
`slides/lecture-new-v2/python/` — it lives in `slides/lecture-new/python/`
— so that import fails there. -/
theorem C5_scripts_lists :
    (∀ s ∈ SCRIPTS_lecture08, s ∈ genModules_lecture08)
    ∧ "gen_02_word_vectors" ∈ SCRIPTS_lectureNewV2
    ∧ "gen_02_word_vectors" ∉ genModules_lectureNewV2
    ∧ "gen_02_word_vectors" ∈ genModules_lectureNew
    ∧ (SCRIPTS_lectureNewV2.filter
        (fun s => !(genModules_lectureNewV2.contains s))).length = 9 := by
  refine ⟨?_, ?_, ?_, ?_, ?_⟩ <;> decide

/-- C5 witness: the first lecture-08 script name exists in the
lecture-08 directory. -/
theorem C5_witness :
    "gen_01_konigsberg" ∈ SCRIPTS_lecture08
    ∧ "gen_01_konigsberg" ∈ genModules_lecture08 :=
  ⟨by decide, C5_scripts_lists.1 "gen_01_konigsberg" (by decide)⟩

/-- C4 counterexample: `gen_20_section_icons.py` saves five PNG files
in one run (one per `ICONS` entry), not exactly one. -/
theorem C4_counterexample :
    gen20SectionIcons_savedPNGs.length = 5
    ∧ ¬ gen20SectionIcons_savedPNGs.length = 1 := by
  refine ⟨rfl, ?_⟩
  decide

/-- C4 (amended): every generator script writes exactly one PNG per
run except `gen_20_section_icons`, which writes one PNG per entry of
its `ICONS` table — five distinct files. -/
theorem C4_generators_save_pngs :
    (∀ p ∈ generatorSavefigCounts,
      p.2 = 1 ∨ (p.1 = "lecture-new/gen_20_section_icons"
        ∧ p.2 = ICONS.length))
    ∧ gen03Softmax_savedPNGs.length = 1
    ∧ gen20SectionIcons_savedPNGs = ICONS.map (fun ic => ic.1)
    ∧ gen20SectionIcons_savedPNGs.length = ICONS.length
    ∧ ICONS.length = 5
    ∧ gen20SectionIcons_savedPNGs.Nodup := by
  refine ⟨?_, rfl, rfl, rfl, rfl, ?_⟩ <;> decide

/-- C4 witness: the first generator of the table saves exactly one
PNG. -/
theorem C4_witness :
    ("lecture-08/gen_01_konigsberg", (1 : Nat)) ∈ generatorSavefigCounts
    ∧ ((("lecture-08/gen_01_konigsberg", (1 : Nat)).2 = 1)
        ∨ (("lecture-08/gen_01_konigsberg", (1 : Nat)).1
              = "lecture-new/gen_20_section_icons"
            ∧ ("lecture-08/gen_01_konigsberg", (1 : Nat)).2
              = ICONS.length)) :=
  ⟨by decide, C4_generators_save_pngs.1 _ (by decide)⟩

lemma downloadLoop_invariant (outcome : DownloadItem → Bool) :
    ∀ (items : List DownloadItem) (st : Nat × List String),
      (items.foldl
        (fun st it =>
          if outcome it then (st.1 + 1, st.2)
          else (st.1, st.2 ++ [it.filename])) st).1
        = st.1 + (items.filter outcome).length
      ∧ (items.foldl
          (fun st it =>
            if outcome it then (st.1 + 1, st.2)
            else (st.1, st.2 ++ [it.filename])) st).2
        = st.2 ++ (items.filter (fun it => !outcome it)).map
            (fun it => it.filename) := by
  intro items
  induction items with
  | nil => intro st; simp
  | cons a as ih =>
    intro st
    cases h : outcome a
    · rw [List.foldl_cons, if_neg (by rw [h]; exact Bool.false_ne_true)]
      refine ⟨?_, ?_⟩
      · rw [(ih _).1]
        simp [List.filter_cons, h]
      · rw [(ih _).2]
        simp [List.filter_cons, h]
    · rw [List.foldl_cons, if_pos h]
      refine ⟨?_, ?_⟩
      · rw [(ih _).1]
        simp [List.filter_cons, h]
        omega
      · rw [(ih _).2]
        simp [List.filter_cons, h]

/-- C6: `detect_rewired_edges` splits the edges of the rewired graph:
counting multiplicity, each edge lands in exactly one of the two lists;
the kept list holds precisely the edges whose unordered endpoint pair
is an edge of the regular graph; the rest are rewired; and comparing a
graph against itself leaves no rewired edges. -/
theorem C6_detect_rewired_edges_spec (regular rewired : List (Nat × Nat)) :
    (∀ e : Nat × Nat,
      ((detect_rewired_edges regular rewired).1.count e
        + (detect_rewired_edges regular rewired).2.count e)
        = rewired.count e)
    ∧ (∀ e : Nat × Nat,
        e ∈ (detect_rewired_edges regular rewired).1 ↔
          (e ∈ rewired ∧ normEdge e ∈ regular.map normEdge))
    ∧ (∀ e : Nat × Nat,
        e ∈ (detect_rewired_edges regular rewired).2 ↔
          (e ∈ rewired ∧ normEdge e ∉ regular.map normEdge))
    ∧ detect_rewired_edges regular regular = (regular, []) := by
  refine ⟨?_, ?_, ?_, ?_⟩
  · intro e
    have h := count_filter_partition
      (fun x => decide (normEdge x ∈ regular.map normEdge)) rewired e
    simpa [detect_rewired_edges, decide_not] using h
  · intro e
    simp [detect_rewired_edges, List.mem_filter]
  · intro e
    simp [detect_rewired_edges, List.mem_filter]
  · simp only [detect_rewired_edges, Prod.mk.injEq]
    constructor
    · apply List.filter_eq_self.mpr
      intro a ha
      simpa using List.mem_map_of_mem normEdge ha
    · apply List.filter_eq_nil_iff.mpr
      intro a ha
      simpa using List.mem_map_of_mem normEdge ha

/-- C8: there are exactly two download scripts with 4 and 8 hardcoded
items; the per-item download function returns true and performs the
write to `dest_dir/filename` when the fetch succeeds, returns false on
an exception, never propagating it; and a script's `main()` attempts
every item exactly once, returning 0 iff all of them succeeded. -/
theorem C8_download_spec :
    downloadScriptPaths.length = 2
    ∧ EXTERNALS.length = 4
    ∧ PORTRAITS.length = 8
    ∧ (∀ (fetch : DownloadItem → FetchResult) (dir : String)
          (it : DownloadItem),
        (∀ data : List Nat, fetch it = FetchResult.ok data →
          download_external fetch dir it
            = (true, some (dir ++ "/" ++ it.filename, data)))
        ∧ (fetch it = FetchResult.exn →
            download_external fetch dir it = (false, none))
        ∧ download_portrait fetch dir it = download_external fetch dir it)
    ∧ (∀ (outcome : DownloadItem → Bool) (items : List DownloadItem),
        ((downloadLoop outcome items).1
            + (downloadLoop outcome items).2.length = items.length)
        ∧ (downloadLoop outcome items).2
            = (items.filter (fun it => !outcome it)).map
                (fun it => it.filename)
        ∧ (downloadMain outcome items = 0 ↔
            ∀ it ∈ items, outcome it = true)) := by
  refine ⟨rfl, rfl, rfl, ?_, ?_⟩
  · intro fetch dir it
    refine ⟨?_, ?_, ?_⟩
    · intro data h
      rw [download_external, h]
    · intro h
      rw [download_external, h]
    · cases h : fetch it <;> rw [download_portrait, download_external, h]
  · intro outcome items
    have hinv := downloadLoop_invariant outcome items (0, [])
    have h1 : (downloadLoop outcome items).1
        = (items.filter outcome).length := by
      have := hinv.1
      simpa [downloadLoop] using this
    have h2 : (downloadLoop outcome items).2
        = (items.filter (fun it => !outcome it)).map
            (fun it => it.filename) := by
      have := hinv.2
      simpa [downloadLoop] using this
    refine ⟨?_, h2, ?_⟩
    · rw [h1, h2, List.length_map]
      exact length_filter_partition _ items
    · constructor
      · intro h it hit
        rw [downloadMain] at h
        by_cases hf : (downloadLoop outcome items).2 = []
        · rw [h2] at hf
          have hfil : items.filter (fun it => !outcome it) = [] :=
            List.map_eq_nil_iff.mp hf
          have := List.filter_eq_nil_iff.mp hfil it hit
          simpa using this
        · rw [if_neg hf] at h
          exact absurd h one_ne_zero
      · intro h
        rw [downloadMain, if_pos]
        rw [h2]
        apply List.map_eq_nil_iff.mpr
        apply List.filter_eq_nil_iff.mpr
        intro a ha
        simp [h a ha]

/-- C8 witness: a successful fetch of one item is written to the
destination directory under the item file name with result true. -/
theorem C8_witness :
    (fun _ : DownloadItem => FetchResult.ok ([7] : List Nat))
        (⟨"a.png", "u", "d"⟩ : DownloadItem) = FetchResult.ok [7]
    ∧ download_external (fun _ => FetchResult.ok [7]) "img"
        (⟨"a.png", "u", "d"⟩ : DownloadItem)
      = (true, some ("img" ++ "/"
          ++ (⟨"a.png", "u", "d"⟩ : DownloadItem).filename, [7])) :=
  ⟨rfl, (C8_download_spec.2.2.2.1 (fun _ => FetchResult.ok [7]) "img"
    ⟨"a.png", "u", "d"⟩).1 [7] rfl⟩

/-- The 36 entries of `build_matrix`, each evaluated by reduction. -/
lemma build_matrix_entries :
    build_matrix 0 0 = 1 ∧ build_matrix 0 1 = 0.60 ∧ build_matrix 0 2 = 0.25
    ∧ build_matrix 0 3 = 0.10 ∧ build_matrix 0 4 = 0.12 ∧ build_matrix 0 5 = 0.15
    ∧ build_matrix 1 0 = 0.60 ∧ build_matrix 1 1 = 1 ∧ build_matrix 1 2 = 0.90
    ∧ build_matrix 1 3 = 0.20 ∧ build_matrix 1 4 = 0.10 ∧ build_matrix 1 5 = 0.35
    ∧ build_matrix 2 0 = 0.25 ∧ build_matrix 2 1 = 0.90 ∧ build_matrix 2 2 = 1
    ∧ build_matrix 2 3 = 0.50 ∧ build_matrix 2 4 = 0.10 ∧ build_matrix 2 5 = 0.20
    ∧ build_matrix 3 0 = 0.10 ∧ build_matrix 3 1 = 0.20 ∧ build_matrix 3 2 = 0.50
    ∧ build_matrix 3 3 = 1 ∧ build_matrix 3 4 = 0.18 ∧ build_matrix 3 5 = 0.70
    ∧ build_matrix 4 0 = 0.12 ∧ build_matrix 4 1 = 0.10 ∧ build_matrix 4 2 = 0.10
    ∧ build_matrix 4 3 = 0.18 ∧ build_matrix 4 4 = 1 ∧ build_matrix 4 5 = 0.45
    ∧ build_matrix 5 0 = 0.15 ∧ build_matrix 5 1 = 0.35 ∧ build_matrix 5 2 = 0.20
    ∧ build_matrix 5 3 = 0.70 ∧ build_matrix 5 4 = 0.45 ∧ build_matrix 5 5 = 1 :=
  ⟨rfl, rfl, rfl, rfl, rfl, rfl, rfl, rfl, rfl, rfl, rfl, rfl,
   rfl, rfl, rfl, rfl, rfl, rfl, rfl, rfl, rfl, rfl, rfl, rfl,
   rfl, rfl, rfl, rfl, rfl, rfl, rfl, rfl, rfl, rfl, rfl, rfl⟩

/-- The six row sums of `build_matrix`, evaluated by reduction. -/
lemma attRowSum_entries :
    attRowSum 0 = [(1 : ℚ), 0.60, 0.25, 0.10, 0.12, 0.15].sum
    ∧ attRowSum 1 = [(0.60 : ℚ), 1, 0.90, 0.20, 0.10, 0.35].sum
    ∧ attRowSum 2 = [(0.25 : ℚ), 0.90, 1, 0.50, 0.10, 0.20].sum
    ∧ attRowSum 3 = [(0.10 : ℚ), 0.20, 0.50, 1, 0.18, 0.70].sum
    ∧ attRowSum 4 = [(0.12 : ℚ), 0.10, 0.10, 0.18, 1, 0.45].sum
    ∧ attRowSum 5 = [(0.15 : ℚ), 0.35, 0.20, 0.70, 0.45, 1].sum :=
  ⟨rfl, rfl, rfl, rfl, rfl, rfl⟩

set_option maxHeartbeats 1000000 in
/-- C9: the attention matrix is 6X6 with symmetric entries, unit
diagonal, off-diagonal entries equal to the `ATTENTION` weight of the
unordered pair (0 for an absent pair) and lying in `[0, 1]`; no row
sums to 1 (the rows are not normalised). -/
theorem C9_build_matrix_spec :
    (∀ a b : Nat, a < 6 → b < 6 → build_matrix a b = build_matrix b a)
    ∧ (∀ a : Nat, a < 6 → build_matrix a a = 1)
    ∧ (∀ a b : Nat, a < 6 → b < 6 → a ≠ b →
        0 ≤ build_matrix a b ∧ build_matrix a b ≤ 1
        ∧ build_matrix a b = attWeight a b)
    ∧ (∀ a : Nat, a < 6 → attRowSum a ≠ 1)
    ∧ NWords = 6 := by
  refine ⟨?_, ?_, ?_, ?_, rfl⟩
  · intro a b ha hb
    interval_cases a <;> interval_cases b <;> rfl
  · intro a ha
    interval_cases a <;> rfl
  · intro a b ha hb hab
    interval_cases a <;> interval_cases b <;>
      first
        | exact absurd rfl hab
        | exact ⟨by norm_num [build_matrix_entries],
            by norm_num [build_matrix_entries], rfl⟩
  · intro a ha
    interval_cases a <;>
      norm_num [attRowSum_entries, List.sum_cons, List.sum_nil]

/-- C9 witness: the off-diagonal clause at the pair `(0, 1)` (the words
The and cat), whose table weight is 0.60. -/
theorem C9_witness :
    ((0 : Nat) < 6 ∧ (1 : Nat) < 6 ∧ (0 : Nat) ≠ 1)
    ∧ (0 ≤ build_matrix 0 1 ∧ build_matrix 0 1 ≤ 1
        ∧ build_matrix 0 1 = attWeight 0 1) :=
  ⟨⟨by decide, by decide, by decide⟩,
   C9_build_matrix_spec.2.2.1 0 1 (by decide) (by decide) (by decide)⟩

/-- C1: `all_labeled_trees n` has exactly `n ^ (n-2)` entries for every
`n ≥ 2`; and for `n ∈ {2, 3, 4}` (1, 3, 16 trees) every entry is a
tree on the labelled node set `{1, …, n}` — connected, acyclic, with
exactly `n-1` edges — no two entries share an edge set, and every tree
on `{1, …, n}` occurs, so the decoded Prüfer sequences enumerate the
labeled trees exactly once. -/
theorem C1_all_labeled_trees_spec :
    (∀ n : Nat, 2 ≤ n → (all_labeled_trees n).length = n ^ (n - 2))
    ∧ ((all_labeled_trees 2).length = 1
        ∧ (all_labeled_trees 3).length = 3
        ∧ (all_labeled_trees 4).length = 16)
    ∧ (∀ n ∈ ([2, 3, 4] : List Nat),
        (∀ G ∈ all_labeled_trees n,
          G.nodes = List.range' 1 n ∧ isTreeOn n G.edges = true)
        ∧ (treeCanonList n).Nodup
        ∧ (∀ es ∈ (allPossibleEdges n).sublistsLen (n - 1),
            isTreeOn n es = true → canonicalEdges es ∈ treeCanonList n)) := by
  refine ⟨?_, ⟨rfl, rfl, rfl⟩, by decide⟩
  intro n hn
  by_cases h2 : n = 2
  · subst h2; rfl
  · have h1 : ¬ n = 1 := by omega
    unfold all_labeled_trees
    rw [if_neg h1, if_neg h2, List.length_map, tuples_length,
      List.length_range']

/-- C1 witness: Cayley count at `n = 4`: 16 trees. -/
theorem C1_witness : 2 ≤ 4 ∧ (all_labeled_trees 4).length = 4 ^ (4 - 2) :=
  ⟨by decide, C1_all_labeled_trees_spec.1 4 (by decide)⟩

end MathForAI
